import Mathlib

/-!
Verification development for the ride-app dispatch core of the RideLink
application: the provider registry (useAppManager), the deep-link builder
(createDeepLink) and the launch orchestrator (openRideApp), together with
the UI-level route validation (handleRideAppPress).

The TypeScript source is embedded shallowly:
  - JavaScript numbers are modelled as exact decimal fractions (structure
    JSNum below); the program only interpolates coordinates into URI
    strings and tests their truthiness, and every concrete coordinate in
    play is an exact decimal, so this captures Number.prototype.toString
    and boolean coercion on the values that occur.
  - The asynchronous platform facilities (AsyncStorage, Linking,
    WebBrowser) are modelled as explicit parameters: a write-success flag
    for AsyncStorage.setItem, an oracle for Linking.canOpenURL that may
    return a Bool or throw, and a success flag for Linking.openURL.
    Calls made to the platform are recorded in an event trace.
  - Thrown-and-caught JavaScript exceptions become explicit branches;
    an exception propagated to the caller becomes a flag or an Except.
-/

set_option maxRecDepth 100000

/-- A JavaScript number that is an exact decimal fraction:
value = mant / 10 ^ scale. -/
structure JSNum where
  mant : Int
  scale : Nat
deriving DecidableEq

/-- Remove factors of ten shared by the mantissa and the scale, so that
printing produces no trailing fractional zeros (as JS toString does). -/
def stripTenFactors : Int → Nat → Int × Nat
  | m, 0 => (m, 0)
  | m, k + 1 => if m % 10 == 0 then stripTenFactors (m / 10) k else (m, k + 1)

/-- Left-pad a digit string with zeros up to width k. -/
def padZeros (s : String) (k : Nat) : String :=
  String.mk (List.replicate (k - s.length) (Char.ofNat 48)) ++ s

/-- Number.prototype.toString for exact decimal values: optional sign,
integer part, and a fractional part with trailing zeros stripped. -/
def jsNumToString (x : JSNum) : String :=
  let p := stripTenFactors x.mant x.scale
  let sign := if p.1 < 0 then "-" else ""
  let a := p.1.natAbs
  let ip := a / 10 ^ p.2
  let fp := a % 10 ^ p.2
  if p.2 == 0 then sign ++ toString ip
  else sign ++ toString ip ++ "." ++ padZeros (toString fp) p.2

/-- JavaScript boolean coercion of a number: zero is falsy. -/
def JSNum.truthy (x : JSNum) : Bool := x.mant != 0

/-- Characters encodeURIComponent leaves intact, by code point:
ASCII alphanumerics and - _ . ! ~ * ( ) and the apostrophe (39). -/
def isUriUnreservedCode (n : Nat) : Bool :=
  (65 ≤ n && n ≤ 90) || (97 ≤ n && n ≤ 122) || (48 ≤ n && n ≤ 57) ||
  n == 45 || n == 95 || n == 46 || n == 33 || n == 126 || n == 42 ||
  n == 39 || n == 40 || n == 41

/-- Upper-case hexadecimal digit for a value below 16. -/
def hexDigitChar (n : Nat) : Char :=
  if n < 10 then Char.ofNat (48 + n) else Char.ofNat (55 + n)

/-- Percent-encode one byte as %XY with upper-case hex digits. -/
def percentByte (b : Nat) : String :=
  String.mk [Char.ofNat 37, hexDigitChar (b / 16), hexDigitChar (b % 16)]

/-- The UTF-8 bytes of a code point. -/
def utf8BytesOf (n : Nat) : List Nat :=
  if n < 128 then [n]
  else if n < 2048 then [192 + n / 64, 128 + n % 64]
  else if n < 65536 then [224 + n / 4096, 128 + (n / 64) % 64, 128 + n % 64]
  else [240 + n / 262144, 128 + (n / 4096) % 64, 128 + (n / 64) % 64, 128 + n % 64]

/-- Encode one character: keep it when the predicate holds for its code
point, otherwise percent-encode each UTF-8 byte. -/
def encodeCharWith (keep : Nat → Bool) (c : Char) : String :=
  if keep c.toNat then String.singleton c
  else String.join ((utf8BytesOf c.toNat).map percentByte)

/-- JavaScript encodeURIComponent. -/
def encodeURIComponent (s : String) : String :=
  String.join (s.data.map (encodeCharWith isUriUnreservedCode))

/-- Characters the URLSearchParams serializer keeps intact
(application/x-www-form-urlencoded set): alphanumerics and * - . _ . -/
def isFormSafeCode (n : Nat) : Bool :=
  (65 ≤ n && n ≤ 90) || (97 ≤ n && n ≤ 122) || (48 ≤ n && n ≤ 57) ||
  n == 42 || n == 45 || n == 46 || n == 95

/-- URLSearchParams serialization of one string: space becomes +, safe
characters stay, everything else is percent-encoded by UTF-8 byte. -/
def formEncode (s : String) : String :=
  String.join (s.data.map (fun c =>
    if c.toNat == 32 then "+" else encodeCharWith isFormSafeCode c))

/-- URLSearchParams.toString on an ordered list of name/value pairs. -/
def urlSearchParamsToString (ps : List (String × String)) : String :=
  String.intercalate "&" (ps.map (fun p => formEncode p.1 ++ "=" ++ formEncode p.2))

/-! ## The provider registry (hooks/useAppManager.ts) -/

/-- One ride-hailing provider configuration (interface RideAppConfig). -/
structure RideAppConfig where
  id : String
  name : String
  icon : String
  color : String
  packageId : String
  enabled : Bool
  deepLinkScheme : String
  playStoreUrl : String
deriving DecidableEq

/-- DEFAULT_RIDE_APPS: the compiled-in canonical provider catalog, in
source order. -/
def DEFAULT_RIDE_APPS : List RideAppConfig :=
  [ { id := "uber", name := "Uber", icon := "🚗", color := "#000000",
      packageId := "com.ubercab", enabled := true, deepLinkScheme := "uber",
      playStoreUrl := "market://details?id=com.ubercab" },
    { id := "99", name := "99", icon := "🟡", color := "#ffd700",
      packageId := "com.taxis99", enabled := true, deepLinkScheme := "taxis99",
      playStoreUrl := "market://details?id=com.taxis99" },
    { id := "lyft", name := "Lyft", icon := "🟣", color := "#ff00bf",
      packageId := "com.lyft", enabled := true, deepLinkScheme := "lyft",
      playStoreUrl := "market://details?id=com.lyft" },
    { id := "taxirio", name := "Taxi.Rio", icon := "🚕", color := "#ff6b35",
      packageId := "br.gov.rj.taxi.rio.passenger", enabled := false,
      deepLinkScheme := "br.gov.rj.taxi.rio.passenger",
      playStoreUrl := "market://details?id=br.gov.rj.taxi.rio.passenger" },
    { id := "indriver", name := "inDriver", icon := "🔵", color := "#1e40af",
      packageId := "sinet.startup.inDriver", enabled := false,
      deepLinkScheme := "indriver",
      playStoreUrl := "market://details?id=sinet.startup.inDriver" },
    { id := "bolt", name := "Bolt", icon := "⚡", color := "#34d399",
      packageId := "ee.mtakso.client", enabled := false, deepLinkScheme := "bolt",
      playStoreUrl := "market://details?id=ee.mtakso.client" },
    { id := "grab", name := "Grab", icon := "🟢", color := "#00b14f",
      packageId := "com.grabtaxi.passenger", enabled := false,
      deepLinkScheme := "grab",
      playStoreUrl := "market://details?id=com.grabtaxi.passenger" },
    { id := "careem", name := "Careem", icon := "🟤", color := "#8b5a2b",
      packageId := "com.careem.acma", enabled := false, deepLinkScheme := "careem",
      playStoreUrl := "market://details?id=com.careem.acma" },
    { id := "ola", name := "Ola", icon := "🟠", color := "#f97316",
      packageId := "com.olacabs.customer", enabled := false,
      deepLinkScheme := "olacabs",
      playStoreUrl := "market://details?id=com.olacabs.customer" },
    { id := "yandex", name := "Yandex Go", icon := "🔴", color := "#dc2626",
      packageId := "ru.yandex.taxi", enabled := false,
      deepLinkScheme := "yandextaxi",
      playStoreUrl := "market://details?id=ru.yandex.taxi" } ]

/-- A persisted override record as loadAppConfiguration consumes it: the
stored blob is an array of provider records, of which only id and enabled
are read. -/
structure StoredApp where
  id : String
  enabled : Bool
deriving DecidableEq

/-- The merge inside loadAppConfiguration: map over the compiled-in
defaults; when the stored array holds a record with the same id, take only
its enabled flag, otherwise keep the default entry. -/
def mergeApps (storedConfig : List StoredApp) : List RideAppConfig :=
  DEFAULT_RIDE_APPS.map (fun defaultApp =>
    match storedConfig.find? (fun app => app.id == defaultApp.id) with
    | some storedApp => { defaultApp with enabled := storedApp.enabled }
    | none => defaultApp)

/-- What AsyncStorage.getItem plus JSON.parse can yield for the registry
key: key absent, the read itself throwing, an unparseable or wrongly
shaped blob (JSON.parse or the subsequent array access throws inside the
same try block), or a parsed array of override records. -/
inductive StoredValue where
  | missing
  | readError
  | unparseable
  | wrongShape
  | parsed (cfg : List StoredApp)
deriving DecidableEq

/-- loadAppConfiguration: reads the stored blob and merges it over the
defaults; every failure is caught inside the function (the catch block
keeps the current in-memory state), so the caller never sees an error.
The second argument is the in-memory rideApps state before the call
(useState initializes it to DEFAULT_RIDE_APPS). -/
def loadAppConfiguration (sv : StoredValue) (current : List RideAppConfig) :
    Except Unit (List RideAppConfig) :=
  match sv with
  | .missing => .ok current
  | .readError => .ok current
  | .unparseable => .ok current
  | .wrongShape => .ok current
  | .parsed cfg => .ok (mergeApps cfg)

/-- An observable event of a mutating registry operation: the persistence
write succeeding or failing, and one subscriber callback being invoked. -/
inductive RegEvent where
  | writeOk
  | writeFail
  | notified (k : Nat)
deriving DecidableEq

/-- AppConfigEventEmitter.emit: invoke every currently subscribed
listener, in subscription order (listeners are identified by number). -/
def emitAll (listeners : List Nat) : List RegEvent :=
  listeners.map RegEvent.notified

/-- AppConfigEventEmitter.subscribe: push the listener onto the list. -/
def subscribeListener (listeners : List Nat) (k : Nat) : List Nat :=
  listeners ++ [k]

/-- Result of a mutating registry operation: whether the call threw to
the caller, the in-memory rideApps state afterwards, and the trace of
write/notify events. -/
structure RegResult where
  threw : Bool
  state : List RideAppConfig
  events : List RegEvent
deriving DecidableEq

/-- saveAppConfiguration: await AsyncStorage.setItem, then set the
in-memory state and emit the change event; when setItem throws, the
error is re-thrown, the state is untouched and no event is emitted.
writeSucceeds models the outcome of the setItem call, listeners the
emitter subscription list, state the in-memory rideApps before. -/
def saveAppConfiguration (writeSucceeds : Bool) (listeners : List Nat)
    (state newConfig : List RideAppConfig) : RegResult :=
  if writeSucceeds then
    { threw := false, state := newConfig,
      events := RegEvent.writeOk :: emitAll listeners }
  else
    { threw := true, state := state, events := [RegEvent.writeFail] }

/-- toggleAppEnabled: flip enabled on every provider whose id matches,
then persist the full updated list through saveAppConfiguration. -/
def toggleAppEnabled (writeSucceeds : Bool) (listeners : List Nat)
    (state : List RideAppConfig) (appId : String) : RegResult :=
  let updatedApps := state.map (fun app =>
    if app.id == appId then { app with enabled := !app.enabled } else app)
  saveAppConfiguration writeSucceeds listeners state updatedApps

/-- getEnabledApps: pure projection of the providers with enabled set. -/
def getEnabledApps (state : List RideAppConfig) : List RideAppConfig :=
  state.filter (fun app => app.enabled)

/-- resetToDefaults: persist the compiled-in defaults. -/
def resetToDefaults (writeSucceeds : Bool) (listeners : List Nat)
    (state : List RideAppConfig) : RegResult :=
  saveAppConfiguration writeSucceeds listeners state DEFAULT_RIDE_APPS

/-- A sequence of toggle calls (all with successful writes), applied in
order starting from the given state. -/
def runToggles : List String → List RideAppConfig → List RideAppConfig
  | [], s => s
  | appId :: ids, s => runToggles ids (toggleAppEnabled true [] s appId).state

/-! ## The dispatch subsystem (hooks/useRideApps.ts) -/

/-- The runtime platform; the source only ever tests Platform.OS against
the string web, so iOS and Android collapse into one native case. -/
inductive Platform where
  | native
  | web
deriving DecidableEq

/-- interface LocationData of useRideApps.ts: an endpoint handed to the
dispatcher, with both coordinates present as numbers. -/
structure LocationData where
  latitude : JSNum
  longitude : JSNum
  address : String
  placeId : Option String
deriving DecidableEq

/-- createDeepLink: provider-specific deep-link URI construction, one
case per known provider id, empty string for an unknown id. -/
def createDeepLink (platform : Platform) (app : RideAppConfig)
    (pickup destination : LocationData) : String :=
  let pickupAddress := encodeURIComponent pickup.address
  let destinationAddress := encodeURIComponent destination.address
  let latO := pickup.latitude
  let lngO := pickup.longitude
  let latD := destination.latitude
  let lngD := destination.longitude
  if app.id == "uber" then
    if platform != Platform.web then
      "uber://?action=setPickup&pickup[formatted_address]=" ++ pickupAddress ++
        "&dropoff[formatted_address]=" ++ destinationAddress
    else
      "https://m.uber.com/ul/?" ++ urlSearchParamsToString
        ([("action", "setPickup"),
          ("pickup[formatted_address]", pickup.address),
          ("dropoff[formatted_address]", destination.address)] ++
         (if latO.truthy && lngO.truthy then
            [("pickup[latitude]", jsNumToString latO),
             ("pickup[longitude]", jsNumToString lngO)]
          else []) ++
         (if latD.truthy && lngD.truthy then
            [("dropoff[latitude]", jsNumToString latD),
             ("dropoff[longitude]", jsNumToString lngD)]
          else []))
  else if app.id == "99" then
    "taxis99://call?pickup_latitude=" ++ jsNumToString latO ++
      "&pickup_longitude=" ++ jsNumToString lngO ++
      "&pickup_title=" ++ pickupAddress ++
      "&dropoff_latitude=" ++ jsNumToString latD ++
      "&dropoff_longitude=" ++ jsNumToString lngD ++
      "&dropoff_title=" ++ destinationAddress
  else if app.id == "taxirio" then
    "br.gov.rj.taxi.rio.passenger://ride"
  else if app.id == "indriver" then
    "indriver://open"
  else if app.id == "lyft" then
    "lyft://ridetype?id=lyft&pickup[latitude]=" ++ jsNumToString latO ++
      "&pickup[longitude]=" ++ jsNumToString lngO ++
      "&destination[latitude]=" ++ jsNumToString latD ++
      "&destination[longitude]=" ++ jsNumToString lngD
  else if app.id == "bolt" then
    "bolt://ride?pickup_lat=" ++ jsNumToString latO ++
      "&pickup_lng=" ++ jsNumToString lngO ++
      "&destination_lat=" ++ jsNumToString latD ++
      "&destination_lng=" ++ jsNumToString lngD
  else if app.id == "grab" then
    "grab://open?screenType=BOOK&type=TRANSPORT&pickup.latitude=" ++
      jsNumToString latO ++ "&pickup.longitude=" ++ jsNumToString lngO ++
      "&dropoff.latitude=" ++ jsNumToString latD ++
      "&dropoff.longitude=" ++ jsNumToString lngD
  else if app.id == "careem" then
    "careem://ride?pickup_latitude=" ++ jsNumToString latO ++
      "&pickup_longitude=" ++ jsNumToString lngO ++
      "&dropoff_latitude=" ++ jsNumToString latD ++
      "&dropoff_longitude=" ++ jsNumToString lngD
  else if app.id == "ola" then
    "olacabs://app/setpickup?lat=" ++ jsNumToString latO ++
      "&lng=" ++ jsNumToString lngO ++
      "&drop_lat=" ++ jsNumToString latD ++
      "&drop_lng=" ++ jsNumToString lngD
  else if app.id == "yandex" then
    "yandextaxi://route?start-lat=" ++ jsNumToString latO ++
      "&start-lon=" ++ jsNumToString lngO ++
      "&end-lat=" ++ jsNumToString latD ++
      "&end-lon=" ++ jsNumToString lngD
  else
    ""

/-- The provider ids that carry a case in createDeepLink. -/
def knownProviderIds : List String :=
  ["uber", "99", "taxirio", "indriver", "lyft", "bolt", "grab", "careem",
   "ola", "yandex"]

/-- The ids for which openRideApp schedules the delayed address
confirmation prompt after a successful open. -/
def prefillAppIds : List String :=
  ["uber", "99", "lyft", "bolt", "grab", "careem", "ola", "yandex"]

/-- A call made to a platform launch facility during one dispatch. -/
inductive PlatformCall where
  | canOpenURL (url : String)
  | openURL (url : String)
  | openBrowser (url : String)
deriving DecidableEq

/-- The user-visible resolution of one dispatch attempt. -/
inductive DispatchOutcome where
  /-- Web platform, uber: the deep link opened in the in-app browser. -/
  | openedInBrowser (url : String)
  /-- Web platform, other provider: alert with a cancel / open-store
  choice whose store option opens the rewritten Play Store web URL. -/
  | webStorePrompt (storeUrl : String)
  /-- Native, canOpenURL answered true: the deep link was opened;
  the flag records whether the delayed confirmation alert is scheduled. -/
  | openedApp (deepLink : String) (confirmScheduled : Bool)
  /-- Native, canOpenURL answered false: not-installed alert with a
  cancel / open-store choice whose store option opens storeUrl. -/
  | storePrompt (storeUrl : String)
  /-- Native, canOpenURL or openURL threw: fallback alert with a
  cancel / open-store choice whose store option opens storeUrl. -/
  | linkErrorStorePrompt (storeUrl : String)
deriving DecidableEq

/-- The window.open target used by the web store prompt: playStoreUrl
with the market:// prefix replaced by the Play Store web prefix. -/
def webStoreUrl (app : RideAppConfig) : String :=
  app.playStoreUrl.replace "market://" "https://play.google.com/store/apps/"

/-- openRideApp: build the deep link, then either open it in the browser
(web, uber), show the web store prompt (web, others), or on native query
canOpenURL and branch: open the URI when the answer is yes, show the
store prompt when it is no, and fall back to the store prompt when the
query or the open throws. canOpen is the Linking.canOpenURL oracle
(it may throw, hence Except); openOk models Linking.openURL succeeding.
Returns the outcome and the trace of platform calls made. -/
def openRideApp (platform : Platform) (canOpen : String → Except Unit Bool)
    (openOk : Bool) (app : RideAppConfig) (pickup destination : LocationData) :
    DispatchOutcome × List PlatformCall :=
  let deepLink := createDeepLink platform app pickup destination
  match platform with
  | .web =>
    if app.id == "uber" then
      (.openedInBrowser deepLink, [.openBrowser deepLink])
    else
      (.webStorePrompt (webStoreUrl app), [])
  | .native =>
    match canOpen deepLink with
    | .ok true =>
      if openOk then
        (.openedApp deepLink (prefillAppIds.contains app.id),
         [.canOpenURL deepLink, .openURL deepLink])
      else
        (.linkErrorStorePrompt app.playStoreUrl,
         [.canOpenURL deepLink, .openURL deepLink])
    | .ok false =>
      (.storePrompt app.playStoreUrl, [.canOpenURL deepLink])
    | .error _ =>
      (.linkErrorStorePrompt app.playStoreUrl, [.canOpenURL deepLink])

/-! ## UI-level route validation (app/(tabs)/index.tsx) -/

/-- A coordinate pair as held in UI state (pickupCoords and
destinationCoords are objects or null). -/
structure Coords where
  latitude : JSNum
  longitude : JSNum
deriving DecidableEq

/-- The slice of the home-screen state handleRideAppPress reads. -/
structure UIState where
  pickupAddress : String
  destinationAddress : String
  pickupCoords : Option Coords
  destinationCoords : Option Coords
  pickupPlaceId : Option String
  destinationPlaceId : Option String
deriving DecidableEq

/-- Drop leading JS whitespace characters. -/
def dropLeadingWs : List Char → List Char
  | [] => []
  | c :: cs => if c.isWhitespace then dropLeadingWs cs else c :: cs

/-- String.prototype.trim: strip whitespace from both ends (modelled
over the ASCII whitespace characters that occur in addresses). -/
def jsTrim (s : String) : String :=
  String.mk ((dropLeadingWs (dropLeadingWs s.data).reverse).reverse)

/-- What one press of a ride-app button resolves to before any dispatch:
one of the two validation alerts, or a dispatch of the chosen app with
the two assembled LocationData values. -/
inductive PressResult where
  | alertRequiredAddresses
  | alertCoordinatesRequired
  | dispatch (app : RideAppConfig) (pickup destination : LocationData)
deriving DecidableEq

/-- handleRideAppPress: refuse with an alert when either address trims
to empty, then when either coordinate pair is missing; otherwise
assemble the two LocationData values and dispatch via openRideApp. -/
def handleRideAppPress (s : UIState) (app : RideAppConfig) : PressResult :=
  if jsTrim s.pickupAddress == "" || jsTrim s.destinationAddress == "" then
    .alertRequiredAddresses
  else
    match s.pickupCoords, s.destinationCoords with
    | some pc, some dc =>
      .dispatch app
        { latitude := pc.latitude, longitude := pc.longitude,
          address := s.pickupAddress, placeId := s.pickupPlaceId }
        { latitude := dc.latitude, longitude := dc.longitude,
          address := s.destinationAddress, placeId := s.destinationPlaceId }
    | _, _ => .alertCoordinatesRequired

/-- Whether a press result reached the dispatch call. -/
def PressResult.isDispatch : PressResult → Bool
  | .dispatch _ _ _ => true
  | _ => false

/-! ## Fixtures -/

/-- Executable substring test on character lists. -/
def seqContains : List Char → List Char → Bool
  | t, [] => t.isEmpty
  | t, c :: cs => t.isPrefixOf (c :: cs) || seqContains t cs

/-- Whether the string t occurs as a contiguous substring of s. -/
def strContainsB (s t : String) : Bool := seqContains t.data s.data

/-- The uber catalog entry. -/
def uberApp : RideAppConfig :=
  { id := "uber", name := "Uber", icon := "🚗", color := "#000000",
    packageId := "com.ubercab", enabled := true, deepLinkScheme := "uber",
    playStoreUrl := "market://details?id=com.ubercab" }

/-- The 99 catalog entry. -/
def app99 : RideAppConfig :=
  { id := "99", name := "99", icon := "🟡", color := "#ffd700",
    packageId := "com.taxis99", enabled := true, deepLinkScheme := "taxis99",
    playStoreUrl := "market://details?id=com.taxis99" }

/-- A provider id absent from the createDeepLink mapping. -/
def unknownApp : RideAppConfig :=
  { id := "foo", name := "Foo", icon := "", color := "",
    packageId := "com.foo", enabled := true, deepLinkScheme := "foo",
    playStoreUrl := "market://details?id=com.foo" }

/-- Scenario pickup: Rua Senador Vergueiro 218, Rio de Janeiro. -/
def scenarioPickup : LocationData :=
  { latitude := ⟨-229068, 4⟩, longitude := ⟨-431729, 4⟩,
    address := "Rua Senador Vergueiro 218, Rio de Janeiro", placeId := none }

/-- Scenario destination: Rua do Catete 214, Rio de Janeiro. -/
def scenarioDestination : LocationData :=
  { latitude := ⟨-229249, 4⟩, longitude := ⟨-431777, 4⟩,
    address := "Rua do Catete 214, Rio de Janeiro", placeId := none }

/-- The scenario pickup with its address emptied. -/
def emptyAddressPickup : LocationData :=
  { latitude := ⟨-229068, 4⟩, longitude := ⟨-431729, 4⟩,
    address := "", placeId := none }

/-! ## Sanity checks of the embedding -/

example : jsNumToString ⟨-229068, 4⟩ = "-22.9068" := by decide
example : jsNumToString ⟨0, 2⟩ = "0" := by decide
example : jsNumToString ⟨-431730, 4⟩ = "-43.173" := by decide
example : encodeURIComponent "Rua do Catete 214, Rio de Janeiro" =
    "Rua%20do%20Catete%20214%2C%20Rio%20de%20Janeiro" := by decide
example : createDeepLink .native uberApp scenarioPickup scenarioDestination =
    "uber://?action=setPickup&pickup[formatted_address]=Rua%20Senador%20Vergueiro%20218%2C%20Rio%20de%20Janeiro&dropoff[formatted_address]=Rua%20do%20Catete%20214%2C%20Rio%20de%20Janeiro" := by
  decide
example : createDeepLink .web uberApp scenarioPickup scenarioDestination =
    "https://m.uber.com/ul/?action=setPickup&pickup%5Bformatted_address%5D=Rua+Senador+Vergueiro+218%2C+Rio+de+Janeiro&dropoff%5Bformatted_address%5D=Rua+do+Catete+214%2C+Rio+de+Janeiro&pickup%5Blatitude%5D=-22.9068&pickup%5Blongitude%5D=-43.1729&dropoff%5Blatitude%5D=-22.9249&dropoff%5Blongitude%5D=-43.1777" := by
  decide



/-! ## Helper lemmas -/

/-- Merging one stored override into a default entry never changes the
id (only the enabled flag is taken from the override). -/
theorem mergeEntry_keeps_id (O : List StoredApp) (d : RideAppConfig) :
    (match O.find? (fun (o : StoredApp) => o.id == d.id) with
     | some o => { d with enabled := o.enabled }
     | none => d).id = d.id := by
  cases O.find? (fun (o : StoredApp) => o.id == d.id) <;> rfl

/-- A successful toggle preserves the id sequence of the registry. -/
theorem toggle_keeps_id_order (state : List RideAppConfig) (appId : String) :
    ((toggleAppEnabled true [] state appId).state).map (fun a => a.id) =
      state.map (fun a => a.id) := by
  show (state.map (fun app => if app.id == appId
      then { app with enabled := !app.enabled } else app)).map (fun a => a.id) =
    state.map (fun a => a.id)
  rw [List.map_map]
  apply List.map_congr_left
  intro a _
  simp only [Function.comp]
  split <;> rfl

/-- Any sequence of successful toggles preserves the id sequence. -/
theorem runToggles_keeps_id_order (ids : List String)
    (state : List RideAppConfig) :
    (runToggles ids state).map (fun a => a.id) = state.map (fun a => a.id) := by
  induction ids generalizing state with
  | nil => rfl
  | cons x xs ih =>
    rw [runToggles, ih]
    exact toggle_keeps_id_order state x

/-! ## Claim theorems: registry -/

/-- C2: for every persisted override set O, the load-time merge yields a
list with exactly as many entries as DEFAULT_RIDE_APPS; its id sequence
is exactly the catalog id sequence; and entrywise the result is the
catalog entry with only the enabled flag replaced by the override value
when an override with that id exists, and the catalog entry unchanged
otherwise. -/
theorem mergeApps_catalog_shape (O : List StoredApp) :
    (mergeApps O).length = DEFAULT_RIDE_APPS.length ∧
    (mergeApps O).map (fun a => a.id) = DEFAULT_RIDE_APPS.map (fun a => a.id) ∧
    ∀ i : Nat, (mergeApps O)[i]? = (DEFAULT_RIDE_APPS[i]?).map
      (fun d =>
        match O.find? (fun (o : StoredApp) => o.id == d.id) with
        | some o => { d with enabled := o.enabled }
        | none => d) := by
  refine ⟨by simp [mergeApps], ?_, ?_⟩
  · unfold mergeApps
    rw [List.map_map]
    apply List.map_congr_left
    intro d _
    simp only [Function.comp]
    exact mergeEntry_keeps_id O d
  · intro i
    unfold mergeApps
    rw [List.getElem?_map]

/-- C7: loadAppConfiguration never propagates a failure to its caller —
for every stored value and every prior in-memory state it returns ok —
and on a stored value representing a missing key, a read error, an
unparseable blob or a wrongly shaped blob, loading over the initial
in-memory state (the compiled-in defaults) yields exactly the
compiled-in default provider list. -/
theorem load_never_fails (sv : StoredValue) (current : List RideAppConfig) :
    (∃ l, loadAppConfiguration sv current = .ok l) ∧
    ((sv = .missing ∨ sv = .readError ∨ sv = .unparseable ∨ sv = .wrongShape) →
      loadAppConfiguration sv DEFAULT_RIDE_APPS = .ok DEFAULT_RIDE_APPS) := by
  constructor
  · cases sv <;> exact ⟨_, rfl⟩
  · rintro (rfl | rfl | rfl | rfl) <;> rfl

/-- Witness for C7 at a concrete erroring store. -/
theorem load_never_fails_witness :
    loadAppConfiguration .readError DEFAULT_RIDE_APPS = .ok DEFAULT_RIDE_APPS :=
  (load_never_fails .readError DEFAULT_RIDE_APPS).2 (Or.inr (Or.inl rfl))

/-- C9: a successful toggle or reset emits exactly one notification to
every currently subscribed listener, and only after the persistence
write has completed (the writeOk event precedes every notified event in
the trace); when the write fails, no listener is notified. -/
theorem notify_after_write (listeners : List Nat)
    (state : List RideAppConfig) (appId : String) (k : Nat) :
    (toggleAppEnabled true listeners state appId).events =
      RegEvent.writeOk :: emitAll listeners ∧
    (resetToDefaults true listeners state).events =
      RegEvent.writeOk :: emitAll listeners ∧
    RegEvent.notified k ∉ (toggleAppEnabled false listeners state appId).events ∧
    RegEvent.notified k ∉ (resetToDefaults false listeners state).events := by
  refine ⟨rfl, rfl, ?_, ?_⟩ <;>
    simp [toggleAppEnabled, resetToDefaults, saveAppConfiguration, emitAll]

/-- C6 counterexample: with a failing store, toggling uber re-throws to
the caller, but the in-memory state stays exactly DEFAULT_RIDE_APPS and
differs from the state an intended (successful) toggle would produce —
the session state does not reflect the toggle. -/
theorem toggle_writeFail_keeps_state :
    (toggleAppEnabled false [] DEFAULT_RIDE_APPS "uber").threw = true ∧
    (toggleAppEnabled false [] DEFAULT_RIDE_APPS "uber").state =
      DEFAULT_RIDE_APPS ∧
    (toggleAppEnabled false [] DEFAULT_RIDE_APPS "uber").state.map
        (fun a => (a.id, a.enabled)) ≠
      (toggleAppEnabled true [] DEFAULT_RIDE_APPS "uber").state.map
        (fun a => (a.id, a.enabled)) := by
  refine ⟨rfl, rfl, ?_⟩
  decide

/-- C6 as amended: when the persistence write fails, the error is
re-thrown to the caller but the in-memory registry state is left
unchanged — it does not reflect the intended toggle; the flipped list is
installed in memory only when the write succeeds. -/
theorem toggle_memory_on_write_failure (listeners : List Nat)
    (state : List RideAppConfig) (appId : String) :
    (toggleAppEnabled false listeners state appId).threw = true ∧
    (toggleAppEnabled false listeners state appId).state = state ∧
    (toggleAppEnabled true listeners state appId).state =
      state.map (fun app => if app.id == appId
        then { app with enabled := !app.enabled } else app) :=
  ⟨rfl, rfl, rfl⟩

/-- C10: toggling an id that matches no provider leaves the whole list
unchanged (every field of every provider), performs the persistence
write of the unchanged list, notifies subscribers, and does not throw
when the write succeeds. -/
theorem toggle_unknown_id_noop (listeners : List Nat)
    (state : List RideAppConfig) (appId : String)
    (h : appId ∉ state.map (fun a => a.id)) :
    toggleAppEnabled true listeners state appId =
      { threw := false, state := state,
        events := RegEvent.writeOk :: emitAll listeners } := by
  have hmap : state.map (fun app => if app.id == appId
      then { app with enabled := !app.enabled } else app) = state := by
    induction state with
    | nil => rfl
    | cons a l ih =>
      simp only [List.map_cons, List.mem_cons] at h
      push_neg at h
      have ha : (a.id == appId) = false := by
        simp only [beq_eq_false_iff_ne, ne_eq]
        exact fun he => h.1 he.symm
      rw [List.map_cons, ih h.2, ha]
      simp
  show saveAppConfiguration true listeners state _ = _
  rw [hmap]
  rfl

/-- Witness for C10 at a concrete unknown id. -/
theorem toggle_unknown_id_noop_witness :
    toggleAppEnabled true [] DEFAULT_RIDE_APPS "zzz" =
      { threw := false, state := DEFAULT_RIDE_APPS,
        events := RegEvent.writeOk :: emitAll [] } :=
  toggle_unknown_id_noop [] DEFAULT_RIDE_APPS "zzz" (by decide)

/-- C8: after any sequence of successful toggles starting from the
compiled-in catalog, the registry id sequence is still exactly the
catalog id sequence, and the enabled projection lists ids as an ordered
subsequence of the catalog id sequence — canonical order, independent of
toggle order; concretely, enabling bolt and then taxirio lists taxirio
before bolt, each at its catalog position, not in toggle order. -/
theorem enabled_projection_order (ids : List String) :
    (runToggles ids DEFAULT_RIDE_APPS).map (fun a => a.id) =
      DEFAULT_RIDE_APPS.map (fun a => a.id) ∧
    List.Sublist
      ((getEnabledApps (runToggles ids DEFAULT_RIDE_APPS)).map (fun a => a.id))
      (DEFAULT_RIDE_APPS.map (fun a => a.id)) ∧
    (getEnabledApps (runToggles ["bolt", "taxirio"] DEFAULT_RIDE_APPS)).map
        (fun a => a.id) = ["uber", "99", "lyft", "taxirio", "bolt"] := by
  refine ⟨runToggles_keeps_id_order ids DEFAULT_RIDE_APPS, ?_, by decide⟩
  have h1 : List.Sublist (getEnabledApps (runToggles ids DEFAULT_RIDE_APPS))
      (runToggles ids DEFAULT_RIDE_APPS) := List.filter_sublist _
  have h2 := h1.map (fun (a : RideAppConfig) => a.id)
  rwa [runToggles_keeps_id_order ids DEFAULT_RIDE_APPS] at h2

/-! ## Claim theorems: dispatch -/

/-- C1 counterexample: openRideApp performs no route re-validation. On a
native platform, for the uber provider and a route whose pickup address
is empty, when the platform reports the link can be opened, the dispatch
queries canOpenURL and calls openURL on the built link and ends in the
opened outcome — it makes platform calls and never reaches an error
outcome. -/
theorem openRideApp_no_revalidation :
    emptyAddressPickup.address = "" ∧
    (openRideApp .native (fun _ => .ok true) true uberApp
        emptyAddressPickup scenarioDestination).2 ≠ [] ∧
    PlatformCall.openURL
        (createDeepLink .native uberApp emptyAddressPickup scenarioDestination) ∈
      (openRideApp .native (fun _ => .ok true) true uberApp
        emptyAddressPickup scenarioDestination).2 ∧
    (openRideApp .native (fun _ => .ok true) true uberApp
        emptyAddressPickup scenarioDestination).1 =
      .openedApp
        (createDeepLink .native uberApp emptyAddressPickup scenarioDestination)
        true := by
  refine ⟨rfl, ?_, ?_, rfl⟩ <;> decide

/-- C1 as amended: route validation lives one layer above the
orchestrator — handleRideAppPress refuses with an alert, dispatching
nothing (so no platform call is made), whenever the pickup or the
destination address trims to empty or either coordinate pair is
missing; openRideApp itself performs no re-validation. -/
theorem ui_validation_gate (s : UIState) (app : RideAppConfig)
    (h : jsTrim s.pickupAddress = "" ∨ jsTrim s.destinationAddress = "" ∨
         s.pickupCoords = none ∨ s.destinationCoords = none) :
    (handleRideAppPress s app).isDispatch = false := by
  unfold handleRideAppPress
  by_cases hb : (jsTrim s.pickupAddress == "" || jsTrim s.destinationAddress == "") = true
  · simp [hb, PressResult.isDispatch]
  · have hb2 : jsTrim s.pickupAddress ≠ "" ∧ jsTrim s.destinationAddress ≠ "" := by
      constructor <;> intro he <;> exact hb (by simp [he])
    rcases h with h | h | h | h
    · exact absurd h hb2.1
    · exact absurd h hb2.2
    · cases hd : s.destinationCoords <;>
        simp [hb, h, hd, PressResult.isDispatch]
    · cases hp : s.pickupCoords <;>
        simp [hb, h, hp, PressResult.isDispatch]

/-- Witness for C1 as amended, at a state with an empty pickup
address. -/
theorem ui_validation_gate_witness :
    (handleRideAppPress
      { pickupAddress := "", destinationAddress := "Rua do Catete 214",
        pickupCoords := none, destinationCoords := none,
        pickupPlaceId := none, destinationPlaceId := none }
      uberApp).isDispatch = false :=
  ui_validation_gate _ uberApp (Or.inl (by decide))

/-- C3: on the native platform, for the scenario route, the uber deep
link contains action=setPickup and the percent-encoded pickup and
destination addresses, and the 99 deep link contains the four
coordinate parameters with the decimal coordinate values; uberApp and
app99 are the catalog entries with ids uber and 99. -/
theorem scenario_deeplinks :
    uberApp ∈ DEFAULT_RIDE_APPS ∧ uberApp.id = "uber" ∧
    app99 ∈ DEFAULT_RIDE_APPS ∧ app99.id = "99" ∧
    strContainsB (createDeepLink .native uberApp scenarioPickup scenarioDestination)
      "action=setPickup" = true ∧
    strContainsB (createDeepLink .native uberApp scenarioPickup scenarioDestination)
      (encodeURIComponent "Rua Senador Vergueiro 218, Rio de Janeiro") = true ∧
    strContainsB (createDeepLink .native uberApp scenarioPickup scenarioDestination)
      (encodeURIComponent "Rua do Catete 214, Rio de Janeiro") = true ∧
    strContainsB (createDeepLink .native app99 scenarioPickup scenarioDestination)
      "pickup_latitude=-22.9068" = true ∧
    strContainsB (createDeepLink .native app99 scenarioPickup scenarioDestination)
      "pickup_longitude=-43.1729" = true ∧
    strContainsB (createDeepLink .native app99 scenarioPickup scenarioDestination)
      "dropoff_latitude=-22.9249" = true ∧
    strContainsB (createDeepLink .native app99 scenarioPickup scenarioDestination)
      "dropoff_longitude=-43.1777" = true := by
  decide

/-- C4: on a native platform, whenever the canOpenURL oracle answers
false for the built deep link, openRideApp resolves through the
prompting-to-install branch carrying the provider store listing URL,
having made only the capability query — openURL is never called. -/
theorem dispatch_canOpen_false_store_prompt
    (canOpen : String → Except Unit Bool) (openOk : Bool)
    (app : RideAppConfig) (pickup destination : LocationData)
    (h : canOpen (createDeepLink .native app pickup destination) = .ok false) :
    openRideApp .native canOpen openOk app pickup destination =
      (.storePrompt app.playStoreUrl,
       [.canOpenURL (createDeepLink .native app pickup destination)]) ∧
    ∀ u, PlatformCall.openURL u ∉
      (openRideApp .native canOpen openOk app pickup destination).2 := by
  have he : openRideApp .native canOpen openOk app pickup destination =
      (.storePrompt app.playStoreUrl,
       [.canOpenURL (createDeepLink .native app pickup destination)]) := by
    simp [openRideApp, h]
  refine ⟨he, ?_⟩
  intro u
  rw [he]
  simp

/-- Witness for C4: a concrete oracle answering false for every URI. -/
theorem dispatch_canOpen_false_store_prompt_witness :
    openRideApp .native (fun _ => .ok false) true uberApp
        scenarioPickup scenarioDestination =
      (.storePrompt uberApp.playStoreUrl,
       [.canOpenURL
          (createDeepLink .native uberApp scenarioPickup scenarioDestination)]) :=
  (dispatch_canOpen_false_store_prompt (fun _ => .ok false) true uberApp
    scenarioPickup scenarioDestination rfl).1

/-- C5 counterexample: for a provider id absent from the builder mapping
the builder does return the empty sentinel, but the dispatcher does not
treat it as a failure: on a native platform whose canOpenURL answers
true, openRideApp calls openURL on the empty string. -/
theorem dispatch_opens_empty_sentinel :
    createDeepLink .native unknownApp scenarioPickup scenarioDestination = "" ∧
    PlatformCall.openURL "" ∈
      (openRideApp .native (fun _ => .ok true) true unknownApp
        scenarioPickup scenarioDestination).2 := by
  refine ⟨rfl, ?_⟩
  decide

/-- C5 as amended: for every provider id absent from the known mapping
the builder returns the empty-string sentinel on either platform; the
dispatcher performs no sentinel check and hands the empty string to the
platform capability query, so the attempt ends in the store prompt only
when the platform answers that the empty URI cannot be opened. -/
theorem unknown_id_sentinel (platform : Platform)
    (canOpen : String → Except Unit Bool) (openOk : Bool)
    (app : RideAppConfig) (pickup destination : LocationData)
    (hid : app.id ∉ knownProviderIds)
    (hfalse : canOpen "" = .ok false) :
    createDeepLink platform app pickup destination = "" ∧
    openRideApp .native canOpen openOk app pickup destination =
      (.storePrompt app.playStoreUrl, [.canOpenURL ""]) := by
  simp only [knownProviderIds, List.mem_cons, List.mem_singleton] at hid
  push_neg at hid
  obtain ⟨h1, h2, h3, h4, h5, h6, h7, h8, h9, h10⟩ := hid
  have hbuild : ∀ pf : Platform, createDeepLink pf app pickup destination = "" := by
    intro pf
    unfold createDeepLink
    simp [h1, h2, h3, h4, h5, h6, h7, h8, h9, h10]
  refine ⟨hbuild platform, ?_⟩
  simp [openRideApp, hbuild, hfalse]

/-- Witness for C5 as amended, at a concrete unknown provider. -/
theorem unknown_id_sentinel_witness :
    createDeepLink .native unknownApp scenarioPickup scenarioDestination = "" ∧
    openRideApp .native (fun _ => .ok false) true unknownApp
        scenarioPickup scenarioDestination =
      (.storePrompt unknownApp.playStoreUrl, [.canOpenURL ""]) :=
  unknown_id_sentinel .native (fun _ => .ok false) true unknownApp
    scenarioPickup scenarioDestination (by decide) rfl
